import Mathlib

/-!
Verification development for the snapshot save/restore core
(`snapshot/core.py` and `snapshot/parser.py`).

The Python code is shallowly embedded: pure helpers become Lean functions,
stateful methods become explicit state-passing functions, numeric values are
modelled by rationals (the code only uses finite floats and exact comparison
formulas `|v1 - v2| <= tolerance`), and fallible code returns `Except`.
Python `str` builtins (`strip`, `split`, `replace`, `startswith`) are
re-implemented structurally over `List Char` so that every definition is
executable by the kernel.
-/

/-! ### Python string builtins -/

/-- Whitespace characters removed by Python `str.strip`. -/
def pyIsSpace (c : Char) : Bool :=
  c = ' ' || c = '\t' || c = '\n' || c = '\r' || c = '\x0b' || c = '\x0c'

/-- Python `str.strip()`. -/
def pstrip (s : String) : String :=
  String.mk (((s.data.dropWhile pyIsSpace).reverse.dropWhile pyIsSpace).reverse)

/-- Python `str.rstrip()`. -/
def rstrip (s : String) : String :=
  String.mk ((s.data.reverse.dropWhile pyIsSpace).reverse)

/-- Python `str.startswith(pre)`. -/
def pyStartswith (s pre : String) : Bool := pre.data.isPrefixOf s.data

/-- Python `str.startswith(tuple)`. -/
def pyStartswithAny (s : String) (pres : List String) : Bool :=
  pres.any (fun p => pyStartswith s p)

/-- Auxiliary for `pySplit1`: split a character list at the first occurrence
of `c`. -/
def splitFirstChar (c : Char) : List Char → List Char × Option (List Char)
  | [] => ([], Option.none)
  | x :: rest =>
    if x = c then ([], some rest)
    else
      let r := splitFirstChar c rest
      (x :: r.1, r.2)

/-- Python `str.split(c, maxsplit=1)`: the part before the first `c`, and
(if `c` occurs) the remainder after it. -/
def pySplit1 (s : String) (c : Char) : String × Option String :=
  let r := splitFirstChar c s.data
  (String.mk r.1, r.2.map String.mk)

/-- Auxiliary for `pySplitAll`: split a character list at every occurrence
of `c`. -/
def splitChar (c : Char) : List Char → List (List Char)
  | [] => [[]]
  | x :: rest =>
    match splitChar c rest with
    | [] => [[]]
    | g :: gs => if x = c then [] :: g :: gs else (x :: g) :: gs

/-- Python `str.split(c)` (no maxsplit, `c` a single character). -/
def pySplitAll (s : String) (c : Char) : List String :=
  (splitChar c s.data).map String.mk

/-- Auxiliary for `pyReplace`; the `Nat` argument is a step bound that makes
the recursion structural, `pyReplace` supplies the input length which always
suffices (each step consumes at least one character of the input). -/
def listReplaceAux (pat rep : List Char) : Nat → List Char → List Char
  | 0, l => l
  | _ + 1, [] => []
  | n + 1, x :: rest =>
    if pat.isPrefixOf (x :: rest) then
      rep ++ listReplaceAux pat rep n ((x :: rest).drop pat.length)
    else
      x :: listReplaceAux pat rep n rest

/-- Python `s.replace(pat, rep)`: replace every non-overlapping occurrence,
scanning left to right.  (The code only calls it with non-empty `pat` of the
form `"$(KEY)"`.) -/
def pyReplace (s pat rep : String) : String :=
  String.mk (listReplaceAux pat.data rep.data s.data.length s.data)

/-- Python `", ".join`. -/
def joinComma : List String → String
  | [] => ""
  | [x] => x
  | x :: y :: rest => x ++ ", " ++ joinComma (y :: rest)

/-- Python `dict` assignment `d[k] = v` on an association list: an existing
key keeps its position and gets the new value, a fresh key is appended. -/
def dictInsert {α : Type} (d : List (String × α)) (k : String) (v : α) :
    List (String × α) :=
  if d.any (fun kv => kv.1 == k) then
    d.map (fun kv => if kv.1 == k then (k, v) else kv)
  else d ++ [(k, v)]

/-- Python `d[k]` lookup (as an `Option`): the first binding of `k`. -/
def dictLookup {α : Type} : List (String × α) → String → Option α
  | [], _ => Option.none
  | kv :: rest, k => if kv.1 == k then some kv.2 else dictLookup rest k

/-- A single-quote character as a string (used in error messages). -/
def squote : String := String.mk [Char.ofNat 39]

/-! ### Value model

A PV value as handled by `SnapshotPv.compare` / `restore_pv` (pyepics hands
the code either Python `None`, a scalar, or a numpy `ndarray`).  Numbers are
modelled as rationals; the code performs only exact arithmetic comparisons
`|v1 - v2| <= tolerance` on finite floats, which rationals model faithfully.
-/

/-- A scalar element: numeric or string. -/
inductive PScalar where
  | num (q : ℚ)
  | str (s : String)
deriving DecidableEq

/-- A Python value held by a PV: `None`, a scalar, or a numpy array
(one-dimensional, as pyepics returns waveforms). -/
inductive PyVal where
  | none
  | scalar (x : PScalar)
  | array (xs : List PScalar)
deriving DecidableEq

/-- Is the scalar numeric (numpy numeric dtype)? -/
def scalarIsNum : PScalar → Bool
  | .num _ => true
  | .str _ => false

/-- Does the value have a numeric numpy dtype?  (An empty numpy array has
dtype float64, hence is numeric.) -/
def pyValNumeric : PyVal → Bool
  | .none => false
  | .scalar x => scalarIsNum x
  | .array xs => xs.all scalarIsNum

/-- Exceptions raised by numpy during comparison: `TypeError` on
non-numeric dtypes (caught by `SnapshotPv.compare`), `ValueError` on
non-broadcastable shapes (not caught). -/
inductive NpErr where
  | typeErr
  | valueErr
deriving DecidableEq

/-- Element-wise closeness test `|a - b| <= t` used by `numpy.allclose` with
`rtol=0, atol=t`.  Only called on numeric scalars. -/
def scalarClose (t : ℚ) : PScalar → PScalar → Bool
  | .num a, .num b => decide (|a - b| ≤ t)
  | _, _ => false

/-- `numpy.allclose(v1, v2, atol=t, rtol=0)`.  Raises `TypeError` when either
operand has a non-numeric dtype (numpy's `result_type`/`isfinite` check fires
before any broadcasting), then broadcasts: equal lengths compare pairwise, a
length-1 array broadcasts against the other operand, a scalar broadcasts
against an array, and any other length combination raises `ValueError`. -/
def np_allclose (v1 v2 : PyVal) (t : ℚ) : Except NpErr Bool :=
  if !(pyValNumeric v1 && pyValNumeric v2) then .error .typeErr
  else
    match v1, v2 with
    | .scalar a, .scalar b => .ok (scalarClose t a b)
    | .scalar a, .array ys => .ok (ys.all (fun y => scalarClose t a y))
    | .array xs, .scalar b => .ok (xs.all (fun x => scalarClose t x b))
    | .array xs, .array ys =>
      if xs.length = ys.length then
        .ok ((xs.zip ys).all (fun p => scalarClose t p.1 p.2))
      else
        match xs, ys with
        | [x], ys2 => .ok (ys2.all (fun y => scalarClose t x y))
        | xs2, [y] => .ok (xs2.all (fun x => scalarClose t x y))
        | _, _ => .error .valueErr
    | _, _ => .error .typeErr

/-- `numpy.array_equal(v1, v2)`: true iff same shape and equal elements
(a scalar and a length-1 array have different shapes, so they are unequal
here). -/
def np_array_equal (v1 v2 : PyVal) : Bool :=
  match v1, v2 with
  | .scalar a, .scalar b => a == b
  | .array xs, .array ys => xs == ys
  | _, _ => false

namespace SnapshotPv

/-- The `is_array` normalization at the top of `SnapshotPv.compare`
(core.py lines 306-320): a non-`None`, non-`ndarray` value of size 1 is
wrapped into a one-element array; a zero-length value becomes `None`
(`numpy.size(None)` is 1, so `None` stays `None`; a non-empty array is
unchanged). -/
def compare_normalize : PyVal → PyVal
  | .none => .none
  | .scalar x => .array [x]
  | .array [] => .none
  | .array xs => .array xs

/-- `SnapshotPv.compare(value1, value2, is_array, tolerance)`
(core.py lines 293-329).  After optional array normalization: if either
operand is `None` the result is `value1 is value2` (true iff both are
`None`); otherwise `numpy.allclose(value1, value2, atol=tolerance, rtol=0)`,
falling back to `numpy.array_equal` when allclose raises `TypeError`
(non-numeric data).  A `ValueError` (incompatible numeric shapes) is not
caught and propagates. -/
def compare (value1 value2 : PyVal) (is_array : Bool) (tolerance : ℚ) :
    Except NpErr Bool :=
  let v1 := if is_array then compare_normalize value1 else value1
  let v2 := if is_array then compare_normalize value2 else value2
  if v1 == PyVal.none || v2 == PyVal.none then
    .ok (v1 == PyVal.none && v2 == PyVal.none)
  else
    match np_allclose v1 v2 tolerance with
    | .ok b => .ok b
    | .error .typeErr => .ok (np_array_equal v1 v2)
    | .error .valueErr => .error .valueErr

end SnapshotPv

/-! ### Claims C2 and C3: the comparison algorithm -/

theorem compare_num_scalar_eq (a b t : ℚ) :
    SnapshotPv.compare (.scalar (.num a)) (.scalar (.num b)) false t =
      .ok (decide (|a - b| ≤ t)) := rfl

/-- Claim C2: for all numeric scalar values `v1, v2` and every tolerance
`t ≥ 0`, `compare(v1, v2, is_array=false, t)` returns true when
`|v1 - v2| ≤ t` and false when `|v1 - v2| > t`. -/
theorem compare_scalar_tolerance (a b t : ℚ) (_ht : 0 ≤ t) :
    (|a - b| ≤ t →
      SnapshotPv.compare (.scalar (.num a)) (.scalar (.num b)) false t = .ok true) ∧
    (t < |a - b| →
      SnapshotPv.compare (.scalar (.num a)) (.scalar (.num b)) false t = .ok false) := by
  refine ⟨fun h => ?_, fun h => ?_⟩
  · rw [compare_num_scalar_eq]
    simp [h]
  · rw [compare_num_scalar_eq]
    simp [not_le.mpr h]

/-- Witness for C2 at `v1 = 3`, `v2 = 5/2`, `t = 1`. -/
theorem compare_scalar_tolerance_witness :
    (0 : ℚ) ≤ 1 ∧
    ((|(3 : ℚ) - 5/2| ≤ 1 →
      SnapshotPv.compare (.scalar (.num 3)) (.scalar (.num (5/2))) false 1 = .ok true) ∧
    (1 < |(3 : ℚ) - 5/2| →
      SnapshotPv.compare (.scalar (.num 3)) (.scalar (.num (5/2))) false 1 = .ok false)) :=
  ⟨by norm_num, compare_scalar_tolerance 3 (5/2) 1 (by norm_num)⟩

theorem compare_normalize_eq_none_iff (v : PyVal) :
    SnapshotPv.compare_normalize v = PyVal.none ↔ v = PyVal.none ∨ v = .array [] := by
  cases v with
  | none => simp [SnapshotPv.compare_normalize]
  | scalar x => simp [SnapshotPv.compare_normalize]
  | array xs => cases xs <;> simp [SnapshotPv.compare_normalize]

/-- Claim C3: with `is_array = true`, `compare` first normalizes each
operand (a scalar collapses to a one-element array, an empty array becomes
the `None` sentinel); consequently `[x]` compares equal to the scalar `x`,
an empty array compares equal exactly to another empty or absent value
(never to a numeric zero), and when either normalized operand is absent the
result is true iff both are. -/
theorem compare_array_normalization (x : PScalar) (v v1 v2 : PyVal) (t : ℚ)
    (ht : 0 ≤ t) :
    (SnapshotPv.compare_normalize (.scalar x) = .array [x]) ∧
    (SnapshotPv.compare_normalize (.array []) = PyVal.none) ∧
    (SnapshotPv.compare (.array [x]) (.scalar x) true t = .ok true) ∧
    (SnapshotPv.compare (.array []) v true t = .ok true ↔
      v = .array [] ∨ v = PyVal.none) ∧
    (SnapshotPv.compare (.array []) (.scalar (.num 0)) true t = .ok false) ∧
    ((SnapshotPv.compare_normalize v1 = PyVal.none ∨
        SnapshotPv.compare_normalize v2 = PyVal.none) →
      (SnapshotPv.compare v1 v2 true t = .ok true ↔
        SnapshotPv.compare_normalize v1 = PyVal.none ∧
          SnapshotPv.compare_normalize v2 = PyVal.none)) := by
  refine ⟨rfl, rfl, ?_, ?_, ?_, ?_⟩
  · cases x with
    | num q =>
      simp [SnapshotPv.compare, SnapshotPv.compare_normalize, np_allclose,
        pyValNumeric, scalarIsNum, scalarClose, ht]
    | str s =>
      simp [SnapshotPv.compare, SnapshotPv.compare_normalize, np_allclose,
        pyValNumeric, scalarIsNum, np_array_equal]
  · cases v with
    | none => simp [SnapshotPv.compare, SnapshotPv.compare_normalize]
    | scalar y => simp [SnapshotPv.compare, SnapshotPv.compare_normalize]
    | array ys =>
      cases ys <;> simp [SnapshotPv.compare, SnapshotPv.compare_normalize]
  · simp [SnapshotPv.compare, SnapshotPv.compare_normalize]
  · intro h
    have hres : SnapshotPv.compare v1 v2 true t =
        .ok ((SnapshotPv.compare_normalize v1 == PyVal.none) &&
          (SnapshotPv.compare_normalize v2 == PyVal.none)) := by
      rcases h with h | h <;> simp [SnapshotPv.compare, h]
    rw [hres]
    simp

/-- Witness for C3 at `x = "on"`, `v = .none`, `v1 = [] (array)`,
`v2 = scalar 4`, `t = 0`. -/
theorem compare_array_normalization_witness :
    (0 : ℚ) ≤ 0 ∧
    ((SnapshotPv.compare_normalize (.scalar (.str "on")) = .array [.str "on"]) ∧
    (SnapshotPv.compare_normalize (.array []) = PyVal.none) ∧
    (SnapshotPv.compare (.array [.str "on"]) (.scalar (.str "on")) true 0 = .ok true) ∧
    (SnapshotPv.compare (.array []) PyVal.none true 0 = .ok true ↔
      PyVal.none = .array [] ∨ PyVal.none = PyVal.none) ∧
    (SnapshotPv.compare (.array []) (.scalar (.num 0)) true 0 = .ok false) ∧
    ((SnapshotPv.compare_normalize (.array []) = PyVal.none ∨
        SnapshotPv.compare_normalize (.scalar (.num 4)) = PyVal.none) →
      (SnapshotPv.compare (.array []) (.scalar (.num 4)) true 0 = .ok true ↔
        SnapshotPv.compare_normalize (.array []) = PyVal.none ∧
          SnapshotPv.compare_normalize (.scalar (.num 4)) = PyVal.none))) :=
  ⟨le_refl 0,
    compare_array_normalization (.str "on") PyVal.none (.array []) (.scalar (.num 4)) 0
      (le_refl 0)⟩

/-! ### PV cache entry state (`SnapshotPv`, core.py lines 102-230)

The mutable state of one `SnapshotPv` object, restricted to the fields the
claims are about.  `_last_value = PyVal.none` models Python `None` (no cached
value); `_pvget_completer` records whether an incomplete low-level get is
pending (`True` iff the Python attribute is not `None`). -/

structure PvState where
  connected : Bool
  write_access : Bool
  is_array : Bool
  _last_value : PyVal
  _initialized : Bool
  _pvget_completer : Bool
deriving DecidableEq

/-- `PvStatus` (core.py lines 86-99). -/
inductive PvStatus where
  | access_err
  | ok
  | no_value
  | equal
  | type_err
deriving DecidableEq

/-- Result of reading the `value` property: the value returned, whether a
blocking network fetch (`PV.get` with `with_ctrlvars=True`) was performed,
and the state after the read. -/
structure GetValueResult where
  result : PyVal
  fetched : Bool
  state : PvState
deriving DecidableEq

/-- Observable outcome of one `restore_pv` call: the status passed to the
callback synchronously (on the caller's thread), the status delivered
asynchronously on write completion, whether `self.put` was invoked, and
whether a `TypeError` escaped because the code called a `None` callback. -/
structure RestoreResult where
  syncStatus : Option PvStatus
  asyncStatus : Option PvStatus
  putCalled : Bool
  raisedTypeError : Bool
deriving DecidableEq

namespace SnapshotPv

/-- The overridden `value` property (core.py lines 128-141): return
`_last_value`; if `_initialized` is false, set it, perform one blocking
`get(use_monitor=False, with_ctrlvars=True)` (modelled by the `network`
argument), cache and return the fetched value. -/
def value (pv : PvState) (network : PyVal) : GetValueResult :=
  if pv._initialized then ⟨pv._last_value, false, pv⟩
  else ⟨network, true, { pv with _initialized := true, _last_value := network }⟩

/-- `SnapshotPv.restore_pv(value, callback)` (core.py lines 198-230).
`network` is the value a blocking fetch would return (used only when the
entry is not initialized, via the `value` property inside
`compare_to_curr`); `putRejects` says whether `self.put` raises `TypeError`
for this value; `hasCb` says whether a callback was supplied.  A `ValueError`
escaping the zero-tolerance comparison propagates as `.error`. -/
def restore_pv (pv : PvState) (network : PyVal) (putRejects : Bool)
    (value : PyVal) (hasCb : Bool) : Except NpErr (RestoreResult × PvState) :=
  if pv.connected then
    if pv.write_access then
      if value = PyVal.none then
        if hasCb then .ok (⟨some .no_value, Option.none, false, false⟩, pv)
        else .ok (⟨Option.none, Option.none, false, true⟩, pv)
      else
        let vr := SnapshotPv.value pv network
        match SnapshotPv.compare value vr.result pv.is_array 0 with
        | .error e => .error e
        | .ok isEq =>
          if !isEq then
            if putRejects then
              if hasCb then .ok (⟨some .type_err, Option.none, true, false⟩, vr.state)
              else .ok (⟨Option.none, Option.none, true, true⟩, vr.state)
            else
              .ok (⟨Option.none, if hasCb then some PvStatus.ok else Option.none,
                true, false⟩, vr.state)
          else
            if hasCb then .ok (⟨some .equal, Option.none, false, false⟩, vr.state)
            else .ok (⟨Option.none, Option.none, false, false⟩, vr.state)
    else
      if hasCb then .ok (⟨some .access_err, Option.none, false, false⟩, pv)
      else .ok (⟨Option.none, Option.none, false, false⟩, pv)
  else
    if hasCb then .ok (⟨some .access_err, Option.none, false, false⟩, pv)
    else .ok (⟨Option.none, Option.none, false, false⟩, pv)

end SnapshotPv

theorem value_of_initialized (pv : PvState) (network : PyVal)
    (h : pv._initialized = true) :
    SnapshotPv.value pv network = ⟨pv._last_value, false, pv⟩ := by
  simp [SnapshotPv.value, h]

/-! ### Claim C4: the `value` property -/

/-- Counterexample to claim C4: a reachable state in which a cached value
exists (`_last_value` is not `None`, set by `PvUpdater._get_complete` while
`get_ctrlvars` timed out so `_initialized` stayed false) but reading `value`
still performs a blocking network fetch, discarding the cached 7 and
returning the freshly fetched 3.  The claim says the fetch happens "only if
no cached value exists yet". -/
theorem value_fetches_despite_cached_value :
    (PvState.mk true true false (.scalar (.num 7)) false false)._last_value ≠
      PyVal.none ∧
    (SnapshotPv.value (PvState.mk true true false (.scalar (.num 7)) false false)
      (.scalar (.num 3))).fetched = true ∧
    (SnapshotPv.value (PvState.mk true true false (.scalar (.num 7)) false false)
      (.scalar (.num 3))).result = .scalar (.num 3) :=
  ⟨by decide, rfl, rfl⟩

/-- Claim C4 (amended): the `value` property returns the cached value with
no network access whenever `_initialized` is true; whenever `_initialized`
is false — regardless of whether a cached value exists — it performs exactly
one blocking fetch, caches the result, marks the entry initialized, and
returns the fetched value; after any read the entry is initialized, so no
later read ever fetches. -/
theorem value_property_spec (pv : PvState) (network : PyVal) :
    (pv._initialized = true →
      SnapshotPv.value pv network = ⟨pv._last_value, false, pv⟩) ∧
    (pv._initialized = false →
      SnapshotPv.value pv network =
        ⟨network, true, { pv with _initialized := true, _last_value := network }⟩) ∧
    ((SnapshotPv.value pv network).state._initialized = true) ∧
    (∀ network2,
      (SnapshotPv.value (SnapshotPv.value pv network).state network2).fetched =
        false) := by
  cases h : pv._initialized <;>
    simp [SnapshotPv.value, h]

/-- Witness for C4 (amended) at a concrete uninitialized state. -/
theorem value_property_spec_witness :
    ((PvState.mk true false false PyVal.none false false)._initialized = true →
      SnapshotPv.value (PvState.mk true false false PyVal.none false false)
          (.scalar (.num 2)) =
        ⟨(PvState.mk true false false PyVal.none false false)._last_value, false,
          PvState.mk true false false PyVal.none false false⟩) ∧
    ((PvState.mk true false false PyVal.none false false)._initialized = false →
      SnapshotPv.value (PvState.mk true false false PyVal.none false false)
          (.scalar (.num 2)) =
        ⟨.scalar (.num 2), true,
          { PvState.mk true false false PyVal.none false false with
              _initialized := true, _last_value := .scalar (.num 2) }⟩) ∧
    ((SnapshotPv.value (PvState.mk true false false PyVal.none false false)
        (.scalar (.num 2))).state._initialized = true) ∧
    (∀ network2,
      (SnapshotPv.value
        (SnapshotPv.value (PvState.mk true false false PyVal.none false false)
          (.scalar (.num 2))).state network2).fetched = false) :=
  value_property_spec (PvState.mk true false false PyVal.none false false)
    (.scalar (.num 2))

/-! ### Claims C1 and C10: `restore_pv` -/

/-- Counterexample to claim C1: a connected, writable entry whose cached
value is the numeric array `[1, 2, 3]`, restored with the defined, unequal
numeric array `[1, 2]`.  The zero-tolerance comparison calls
`numpy.allclose` on non-broadcastable shapes, which raises `ValueError`;
`restore_pv` catches only `TypeError`, so the error propagates: no write is
issued and no callback is invoked, contradicting "otherwise exactly one
non-blocking write is issued". -/
theorem restore_pv_raises_on_shape_mismatch :
    (PvState.mk true true true (.array [.num 1, .num 2, .num 3]) true
        false).connected = true ∧
    (PvState.mk true true true (.array [.num 1, .num 2, .num 3]) true
        false).write_access = true ∧
    (PyVal.array [.num 1, .num 2] ≠ PyVal.none) ∧
    SnapshotPv.restore_pv
        (PvState.mk true true true (.array [.num 1, .num 2, .num 3]) true false)
        PyVal.none false (.array [.num 1, .num 2]) true =
      .error .valueErr :=
  ⟨rfl, rfl, by decide, rfl⟩

/-- Claim C1 (amended): for an initialized entry with a callback supplied:
not connected or no write permission invokes the callback synchronously
with `access_err` and issues no write; an undefined value invokes it with
`no_value` and issues no write; a value equal to the current cached value
under the zero-tolerance array-normalized comparison invokes it with
`equal` and issues no write; otherwise, provided the comparison itself
completes, exactly one non-blocking write is attempted, reported `ok`
asynchronously on completion, or `type_err` when the write rejects the
value; if the comparison raises (non-broadcastable numeric arrays), the
error propagates with no write and no callback. -/
theorem restore_pv_spec (pv : PvState) (network : PyVal) (putRejects : Bool)
    (value : PyVal) (hinit : pv._initialized = true) :
    ((pv.connected = false ∨ pv.write_access = false) →
      SnapshotPv.restore_pv pv network putRejects value true =
        .ok (⟨some .access_err, Option.none, false, false⟩, pv)) ∧
    (pv.connected = true → pv.write_access = true → value = PyVal.none →
      SnapshotPv.restore_pv pv network putRejects value true =
        .ok (⟨some .no_value, Option.none, false, false⟩, pv)) ∧
    (pv.connected = true → pv.write_access = true → value ≠ PyVal.none →
      SnapshotPv.compare value pv._last_value pv.is_array 0 = .ok true →
      SnapshotPv.restore_pv pv network putRejects value true =
        .ok (⟨some .equal, Option.none, false, false⟩, pv)) ∧
    (pv.connected = true → pv.write_access = true → value ≠ PyVal.none →
      SnapshotPv.compare value pv._last_value pv.is_array 0 = .ok false →
      SnapshotPv.restore_pv pv network putRejects value true =
        .ok ((if putRejects then ⟨some .type_err, Option.none, true, false⟩
          else ⟨Option.none, some PvStatus.ok, true, false⟩), pv)) ∧
    (∀ e, pv.connected = true → pv.write_access = true → value ≠ PyVal.none →
      SnapshotPv.compare value pv._last_value pv.is_array 0 = .error e →
      SnapshotPv.restore_pv pv network putRejects value true = .error e) := by
  refine ⟨?_, ?_, ?_, ?_, ?_⟩
  · rintro (h | h)
    · simp [SnapshotPv.restore_pv, h]
    · cases hc : pv.connected <;> simp [SnapshotPv.restore_pv, h, hc]
  · intro hc hw hv
    simp [SnapshotPv.restore_pv, hc, hw, hv]
  · intro hc hw hv hcmp
    simp [SnapshotPv.restore_pv, hc, hw, hv,
      value_of_initialized pv network hinit, hcmp]
  · intro hc hw hv hcmp
    cases putRejects <;>
      simp [SnapshotPv.restore_pv, hc, hw, hv,
        value_of_initialized pv network hinit, hcmp]
  · intro e hc hw hv hcmp
    simp [SnapshotPv.restore_pv, hc, hw, hv,
      value_of_initialized pv network hinit, hcmp]

/-- Witness for C1 (amended): a disconnected entry with a cached value. -/
theorem restore_pv_spec_witness :
    (((PvState.mk false true false (.scalar (.num 1)) true false).connected = false ∨
      (PvState.mk false true false (.scalar (.num 1)) true false).write_access = false) →
      SnapshotPv.restore_pv (PvState.mk false true false (.scalar (.num 1)) true false)
          PyVal.none false (.scalar (.num 2)) true =
        .ok (⟨some .access_err, Option.none, false, false⟩,
          PvState.mk false true false (.scalar (.num 1)) true false)) ∧
    ((PvState.mk false true false (.scalar (.num 1)) true false).connected = true →
      (PvState.mk false true false (.scalar (.num 1)) true false).write_access = true →
      PyVal.scalar (.num 2) = PyVal.none →
      SnapshotPv.restore_pv (PvState.mk false true false (.scalar (.num 1)) true false)
          PyVal.none false (.scalar (.num 2)) true =
        .ok (⟨some .no_value, Option.none, false, false⟩,
          PvState.mk false true false (.scalar (.num 1)) true false)) ∧
    ((PvState.mk false true false (.scalar (.num 1)) true false).connected = true →
      (PvState.mk false true false (.scalar (.num 1)) true false).write_access = true →
      PyVal.scalar (.num 2) ≠ PyVal.none →
      SnapshotPv.compare (.scalar (.num 2))
        (PvState.mk false true false (.scalar (.num 1)) true false)._last_value
        (PvState.mk false true false (.scalar (.num 1)) true false).is_array 0 = .ok true →
      SnapshotPv.restore_pv (PvState.mk false true false (.scalar (.num 1)) true false)
          PyVal.none false (.scalar (.num 2)) true =
        .ok (⟨some .equal, Option.none, false, false⟩,
          PvState.mk false true false (.scalar (.num 1)) true false)) ∧
    ((PvState.mk false true false (.scalar (.num 1)) true false).connected = true →
      (PvState.mk false true false (.scalar (.num 1)) true false).write_access = true →
      PyVal.scalar (.num 2) ≠ PyVal.none →
      SnapshotPv.compare (.scalar (.num 2))
        (PvState.mk false true false (.scalar (.num 1)) true false)._last_value
        (PvState.mk false true false (.scalar (.num 1)) true false).is_array 0 = .ok false →
      SnapshotPv.restore_pv (PvState.mk false true false (.scalar (.num 1)) true false)
          PyVal.none false (.scalar (.num 2)) true =
        .ok ((if false then ⟨some .type_err, Option.none, true, false⟩
          else ⟨Option.none, some PvStatus.ok, true, false⟩),
          PvState.mk false true false (.scalar (.num 1)) true false)) ∧
    (∀ e, (PvState.mk false true false (.scalar (.num 1)) true false).connected = true →
      (PvState.mk false true false (.scalar (.num 1)) true false).write_access = true →
      PyVal.scalar (.num 2) ≠ PyVal.none →
      SnapshotPv.compare (.scalar (.num 2))
        (PvState.mk false true false (.scalar (.num 1)) true false)._last_value
        (PvState.mk false true false (.scalar (.num 1)) true false).is_array 0 = .error e →
      SnapshotPv.restore_pv (PvState.mk false true false (.scalar (.num 1)) true false)
          PyVal.none false (.scalar (.num 2)) true = .error e) :=
  restore_pv_spec (PvState.mk false true false (.scalar (.num 1)) true false)
    PyVal.none false (.scalar (.num 2)) rfl

/-- Claim C10: on a connected, writable entry, `restore_pv(None)` with no
callback raises `TypeError` (the `no_value` branch calls the callback
unconditionally), while the `access_err` and `equal` branches are guarded
by `elif callback:` and return silently without error when no callback is
supplied. -/
theorem restore_pv_none_callback (pv : PvState) (network : PyVal)
    (putRejects : Bool) (value : PyVal) (hinit : pv._initialized = true) :
    (pv.connected = true → pv.write_access = true →
      SnapshotPv.restore_pv pv network putRejects PyVal.none false =
        .ok (⟨Option.none, Option.none, false, true⟩, pv)) ∧
    ((pv.connected = false ∨ pv.write_access = false) →
      SnapshotPv.restore_pv pv network putRejects value false =
        .ok (⟨Option.none, Option.none, false, false⟩, pv)) ∧
    (pv.connected = true → pv.write_access = true → value ≠ PyVal.none →
      SnapshotPv.compare value pv._last_value pv.is_array 0 = .ok true →
      SnapshotPv.restore_pv pv network putRejects value false =
        .ok (⟨Option.none, Option.none, false, false⟩, pv)) := by
  refine ⟨?_, ?_, ?_⟩
  · intro hc hw
    simp [SnapshotPv.restore_pv, hc, hw]
  · rintro (h | h)
    · simp [SnapshotPv.restore_pv, h]
    · cases hc : pv.connected <;> simp [SnapshotPv.restore_pv, h, hc]
  · intro hc hw hv hcmp
    simp [SnapshotPv.restore_pv, hc, hw, hv,
      value_of_initialized pv network hinit, hcmp]

/-- Witness for C10 at a concrete connected writable entry. -/
theorem restore_pv_none_callback_witness :
    ((PvState.mk true true false (.scalar (.num 5)) true false).connected = true →
      (PvState.mk true true false (.scalar (.num 5)) true false).write_access = true →
      SnapshotPv.restore_pv (PvState.mk true true false (.scalar (.num 5)) true false)
          PyVal.none false PyVal.none false =
        .ok (⟨Option.none, Option.none, false, true⟩,
          PvState.mk true true false (.scalar (.num 5)) true false)) ∧
    (((PvState.mk true true false (.scalar (.num 5)) true false).connected = false ∨
      (PvState.mk true true false (.scalar (.num 5)) true false).write_access = false) →
      SnapshotPv.restore_pv (PvState.mk true true false (.scalar (.num 5)) true false)
          PyVal.none false (.scalar (.num 5)) false =
        .ok (⟨Option.none, Option.none, false, false⟩,
          PvState.mk true true false (.scalar (.num 5)) true false)) ∧
    ((PvState.mk true true false (.scalar (.num 5)) true false).connected = true →
      (PvState.mk true true false (.scalar (.num 5)) true false).write_access = true →
      PyVal.scalar (.num 5) ≠ PyVal.none →
      SnapshotPv.compare (.scalar (.num 5))
        (PvState.mk true true false (.scalar (.num 5)) true false)._last_value
        (PvState.mk true true false (.scalar (.num 5)) true false).is_array 0 = .ok true →
      SnapshotPv.restore_pv (PvState.mk true true false (.scalar (.num 5)) true false)
          PyVal.none false (.scalar (.num 5)) false =
        .ok (⟨Option.none, Option.none, false, false⟩,
          PvState.mk true true false (.scalar (.num 5)) true false)) :=
  restore_pv_none_callback (PvState.mk true true false (.scalar (.num 5)) true false)
    PyVal.none false (.scalar (.num 5)) rfl

/-! ### Background worker registry (`_BackgroundWorkers`, core.py lines 39-76) -/

/-- State of the `_BackgroundWorkers` registry: the registered workers
(abstracted as identifiers) and the suspension counter (a Python `int`). -/
structure _BackgroundWorkers where
  _workers : List Nat
  _count : Int
deriving DecidableEq

/-- `suspend()` (core.py lines 52-57): when the counter is 0, call
`w.suspend()` on every registered worker (the returned flag records whether
that loop ran); then increment the counter. -/
def _BackgroundWorkers.suspend (s : _BackgroundWorkers) :
    _BackgroundWorkers × Bool :=
  (⟨s._workers, s._count + 1⟩, s._count == 0)

/-- `resume()` (core.py lines 59-65): when the counter is positive,
decrement it, and when it thereby reaches 0 call `w.resume()` on every
registered worker (the flag); when the counter is not positive, do
nothing. -/
def _BackgroundWorkers.resume (s : _BackgroundWorkers) :
    _BackgroundWorkers × Bool :=
  if s._count > 0 then (⟨s._workers, s._count - 1⟩, (s._count - 1) == 0)
  else (s, false)

/-- One call in a suspend/resume sequence. -/
inductive BwOp where
  | susp
  | res
deriving DecidableEq

/-- Apply one registry call, returning the new state and whether the
workers' underlying `suspend()` (respectively `resume()`) loop ran. -/
def bwStep (s : _BackgroundWorkers) : BwOp → _BackgroundWorkers × Bool × Bool
  | .susp => ((s.suspend).1, (s.suspend).2, false)
  | .res => ((s.resume).1, false, (s.resume).2)

/-- Run a whole sequence of `suspend()`/`resume()` calls from a fresh
registry holding workers `ws`. -/
def bwExec (ws : List Nat) (ops : List BwOp) : _BackgroundWorkers :=
  ops.foldl (fun s op => (bwStep s op).1) ⟨ws, 0⟩

theorem bwStep_count_nonneg (s : _BackgroundWorkers) (op : BwOp)
    (h : 0 ≤ s._count) : 0 ≤ (bwStep s op).1._count := by
  cases op <;>
    simp only [bwStep, _BackgroundWorkers.suspend, _BackgroundWorkers.resume]
  · omega
  · split <;> simp <;> omega

theorem bwExec_foldl_nonneg (ops : List BwOp) :
    ∀ s : _BackgroundWorkers, 0 ≤ s._count →
      0 ≤ (ops.foldl (fun s op => (bwStep s op).1) s)._count := by
  induction ops with
  | nil => intro s h; simpa
  | cons op rest ih => intro s h; exact ih _ (bwStep_count_nonneg s op h)

theorem bwStep_workers (s : _BackgroundWorkers) (op : BwOp) :
    (bwStep s op).1._workers = s._workers := by
  cases op <;>
    simp only [bwStep, _BackgroundWorkers.suspend, _BackgroundWorkers.resume]
  · split <;> rfl

theorem bwExec_foldl_workers (ops : List BwOp) :
    ∀ s : _BackgroundWorkers,
      (ops.foldl (fun s op => (bwStep s op).1) s)._workers = s._workers := by
  induction ops with
  | nil => intro s; rfl
  | cons op rest ih => intro s; rw [List.foldl_cons, ih, bwStep_workers]

/-- Claim C8: for every sequence of `suspend()`/`resume()` calls, the
counter of the registry never becomes negative, the registered workers are
unchanged, the workers' underlying `suspend()` runs exactly on the counter
transition 0 → 1, the underlying `resume()` exactly on the transition
1 → 0, and a `resume()` with counter 0 leaves the state unchanged and calls
nothing. -/
theorem background_workers_transitions (ws : List Nat) (ops : List BwOp) :
    0 ≤ (bwExec ws ops)._count ∧
    (bwExec ws ops)._workers = ws ∧
    (((bwExec ws ops).suspend).2 = true ↔
      (bwExec ws ops)._count = 0 ∧ ((bwExec ws ops).suspend).1._count = 1) ∧
    (((bwExec ws ops).resume).2 = true ↔
      (bwExec ws ops)._count = 1 ∧ ((bwExec ws ops).resume).1._count = 0) ∧
    ((bwExec ws ops)._count = 0 → (bwExec ws ops).resume = ((bwExec ws ops), false)) := by
  have hn : 0 ≤ (bwExec ws ops)._count :=
    bwExec_foldl_nonneg ops ⟨ws, 0⟩ (by simp)
  refine ⟨hn, ?_, ?_, ?_, ?_⟩
  · exact bwExec_foldl_workers ops ⟨ws, 0⟩
  · simp only [_BackgroundWorkers.suspend]
    constructor
    · intro h
      simp only [beq_iff_eq] at h
      exact ⟨h, by omega⟩
    · intro ⟨h, _⟩
      simp [h]
  · simp only [_BackgroundWorkers.resume]
    split
    · simp only [beq_iff_eq]
      omega
    · simp only [Bool.false_eq_true, false_iff]
      omega
  · intro h
    simp [_BackgroundWorkers.resume, h]

/-- Witness for C8 at the sequence suspend, suspend, resume. -/
theorem background_workers_transitions_witness :
    0 ≤ (bwExec [7] [.susp, .susp, .res])._count ∧
    (bwExec [7] [.susp, .susp, .res])._workers = [7] ∧
    (((bwExec [7] [.susp, .susp, .res]).suspend).2 = true ↔
      (bwExec [7] [.susp, .susp, .res])._count = 0 ∧
        ((bwExec [7] [.susp, .susp, .res]).suspend).1._count = 1) ∧
    (((bwExec [7] [.susp, .susp, .res]).resume).2 = true ↔
      (bwExec [7] [.susp, .susp, .res])._count = 1 ∧
        ((bwExec [7] [.susp, .susp, .res]).resume).1._count = 0) ∧
    ((bwExec [7] [.susp, .susp, .res])._count = 0 →
      (bwExec [7] [.susp, .susp, .res]).resume = ((bwExec [7] [.susp, .susp, .res]), false)) :=
  background_workers_transitions [7] [.susp, .susp, .res]

/-! ### Scheduler read completion (`PvUpdater._get_complete`, core.py
lines 456-471) -/

/-- Outcome of `ca.get_complete_with_metadata` for one entry: the call
returned `None` within the timeout window, raised
`ca.ChannelAccessException`, or returned metadata whose `value` field is
`v`. -/
inductive CompleteOutcome where
  | timeout
  | channel_exc
  | success (v : PyVal)
deriving DecidableEq

namespace PvUpdater

/-- `PvUpdater._get_complete(pv)` (core.py lines 456-471): on a
disconnected channel return `None` without touching the entry; on timeout
return `None` leaving `_last_value` and `_pvget_completer` unchanged; on a
`ChannelAccessException` return `None`; on success clear the completer,
store the value in the cache and return it. -/
def _get_complete (pv : PvState) (outcome : CompleteOutcome) :
    Option PyVal × PvState :=
  if pv.connected then
    match outcome with
    | .timeout => (Option.none, pv)
    | .channel_exc => (Option.none, pv)
    | .success v =>
      (some v, { pv with _pvget_completer := false, _last_value := v })
  else (Option.none, pv)

/-- The cycle's value list `vals = [self._get_complete(pv) for pv in
self._pvs]` (core.py line 516), given each entry's completion outcome. -/
def collectVals (l : List (PvState × CompleteOutcome)) : List (Option PyVal) :=
  l.map (fun po => (_get_complete po.1 po.2).1)

end PvUpdater

/-- Claim C9: collecting a non-blocking read updates the entry's cached
value only on success; on timeout within the scheduler-period window, or on
a disconnected channel, the cached value is left unchanged and `None` is
produced for that entry in the cycle's value list. -/
theorem pvupdater_get_complete_spec (pv : PvState) (outcome : CompleteOutcome) :
    (pv.connected = false →
      PvUpdater._get_complete pv outcome = (Option.none, pv)) ∧
    (outcome = .timeout →
      PvUpdater._get_complete pv outcome = (Option.none, pv)) ∧
    (outcome = .channel_exc →
      PvUpdater._get_complete pv outcome = (Option.none, pv)) ∧
    (∀ v, pv.connected = true → outcome = .success v →
      PvUpdater._get_complete pv outcome =
        (some v, { pv with _pvget_completer := false, _last_value := v })) ∧
    ((PvUpdater._get_complete pv outcome).2._last_value ≠ pv._last_value →
      ∃ v, outcome = .success v ∧ pv.connected = true) ∧
    (∀ l, PvUpdater.collectVals ((pv, outcome) :: l) =
      (PvUpdater._get_complete pv outcome).1 :: PvUpdater.collectVals l) := by
  refine ⟨?_, ?_, ?_, ?_, ?_, ?_⟩
  · intro h
    simp [PvUpdater._get_complete, h]
  · intro h
    subst h
    cases hc : pv.connected <;> simp [PvUpdater._get_complete, hc]
  · intro h
    subst h
    cases hc : pv.connected <;> simp [PvUpdater._get_complete, hc]
  · intro v hc h
    subst h
    simp [PvUpdater._get_complete, hc]
  · intro h
    cases hc : pv.connected <;> cases outcome <;>
      simp_all [PvUpdater._get_complete]
  · intro l
    rfl

/-- Witness for C9 at a concrete connected entry timing out. -/
theorem pvupdater_get_complete_spec_witness :
    ((PvState.mk true true false (.scalar (.num 9)) true true).connected = false →
      PvUpdater._get_complete (PvState.mk true true false (.scalar (.num 9)) true true)
          .timeout =
        (Option.none, PvState.mk true true false (.scalar (.num 9)) true true)) ∧
    (CompleteOutcome.timeout = .timeout →
      PvUpdater._get_complete (PvState.mk true true false (.scalar (.num 9)) true true)
          .timeout =
        (Option.none, PvState.mk true true false (.scalar (.num 9)) true true)) ∧
    (CompleteOutcome.timeout = .channel_exc →
      PvUpdater._get_complete (PvState.mk true true false (.scalar (.num 9)) true true)
          .timeout =
        (Option.none, PvState.mk true true false (.scalar (.num 9)) true true)) ∧
    (∀ v, (PvState.mk true true false (.scalar (.num 9)) true true).connected = true →
      CompleteOutcome.timeout = .success v →
      PvUpdater._get_complete (PvState.mk true true false (.scalar (.num 9)) true true)
          .timeout =
        (some v, { PvState.mk true true false (.scalar (.num 9)) true true with
          _pvget_completer := false, _last_value := v })) ∧
    ((PvUpdater._get_complete (PvState.mk true true false (.scalar (.num 9)) true true)
        .timeout).2._last_value ≠
        (PvState.mk true true false (.scalar (.num 9)) true true)._last_value →
      ∃ v, CompleteOutcome.timeout = .success v ∧
        (PvState.mk true true false (.scalar (.num 9)) true true).connected = true) ∧
    (∀ l, PvUpdater.collectVals
        ((PvState.mk true true false (.scalar (.num 9)) true true,
          CompleteOutcome.timeout) :: l) =
      (PvUpdater._get_complete (PvState.mk true true false (.scalar (.num 9)) true true)
        .timeout).1 ::
        PvUpdater.collectVals l) :=
  pvupdater_get_complete_spec (PvState.mk true true false (.scalar (.num 9)) true true)
    .timeout

/-! ### Request file resolver (`SnapshotReqFile`, parser.py lines 12-158)

File-system paths are opaque strings; the `os.path` functions the code
delegates to are a parameter (`PathLib`), and the file system is a partial
map from path to list of lines (Python's line iterator yields lines whose
trailing newline the code immediately strips, so lines are modelled without
it).  The `Nat` fuel bounds the number of lines and include recursions
processed and makes the recursion structural; every claim quantifies over
the fuel. -/

/-- The `os.path` functions used by the resolver. -/
structure PathLib where
  abspath : String → String
  normpath : String → String
  dirname : String → String
  joinp : String → String → String

/-- State of one `SnapshotReqFile` node: its (abspath-ed) `_path`, the
`_path`s of its ancestor chain (nearest parent first), `_macros`,
`_c_macros`, and the accumulated `_trace` string. -/
structure ReqCtx where
  _path : String
  ancestors : List String
  _macros : List (String × String)
  _c_macros : List String
  _trace : String
deriving DecidableEq

namespace SnapshotPv

/-- `SnapshotPv.macros_substitution(txt, macros)` (core.py lines 386-399):
replace every occurrence of `$(KEY)` by the macro's value, iterating the
macros in insertion order. -/
def macros_substitution (txt : String) (macros : List (String × String)) : String :=
  macros.foldl (fun t kv => pyReplace t ("$(" ++ kv.1 ++ ")") kv.2) txt

end SnapshotPv

/-- Split a character list at the first closing parenthesis (the non-greedy
part of the regex `\$\(.*?\)`). -/
def splitAtRParen : List Char → Option (List Char × List Char)
  | [] => Option.none
  | c :: rest =>
    if c = ')' then some ([], rest)
    else
      match splitAtRParen rest with
      | some (a, b) => some (c :: a, b)
      | Option.none => Option.none

/-- Scanner for `re.findall(r'\$\(.*?\)', txt)` with a structural step
bound: at a `$(` take the shortest match up to the next `)`; if no closing
parenthesis remains, no further match is possible. -/
def findTokensGo : Nat → List Char → List String
  | 0, _ => []
  | _ + 1, [] => []
  | n + 1, c :: rest =>
    if c = '$' then
      match rest with
      | [] => []
      | p :: rest2 =>
        if p = '(' then
          match splitAtRParen rest2 with
          | some (inner, rest3) =>
            ("$(" ++ String.mk inner ++ ")") :: findTokensGo n rest3
          | Option.none => []
        else findTokensGo n (p :: rest2)
    else findTokensGo n rest

/-- All `$(...)` macro tokens occurring in `s`, left to right, non-greedy
(the regex `\$\(.*?\)` in `_validate_macros_in_txt`). -/
def findMacroTokens (s : String) : List String :=
  findTokensGo s.data.length s.data

/-- `raw_macro[2:-1]`: the macro name inside a `$(NAME)` token. -/
def macroTokenName (tok : String) : String :=
  String.mk ((tok.data.drop 2).dropLast)

namespace SnapshotReqFile

/-- `SnapshotReqFile._validate_macros_in_txt` (parser.py lines 132-142),
returning the offending tokens instead of raising: a remaining token is
invalid unless its full text equals one of the macro values or its name is
in the changeable-macro list. -/
def invalid_macros (macros : List (String × String)) (cmacros : List String)
    (txt : String) : List String :=
  (findMacroTokens txt).filter
    (fun tok => !(macros.any (fun kv => kv.2 == tok)) &&
      !(cmacros.any (fun m => m == macroTokenName tok)))

/-- `SnapshotReqFile._format_err` (parser.py lines 129-130):
`'{} [line {}: {}]: {}'`. -/
def _format_err (trace a b msg : String) : String :=
  trace ++ " [line " ++ a ++ ": " ++ b ++ "]: " ++ msg

end SnapshotReqFile

/-- The `MacroError` message of `_validate_macros_in_txt`. -/
def macroErrMsg (invalid : List String) : String :=
  "Following macros were not defined: " ++ joinComma invalid

/-- `parse_macros(macros_str)` (parser.py lines 162-180): comma-separated
`KEY=VALUE` pairs into a dict; an entry that does not split on `=` into
exactly two parts raises `MacroError` (returned as `.error` with the
message). -/
def parse_macros (s : String) : Except String (List (String × String)) :=
  if s == "" then .ok []
  else
    (pySplitAll s ',').foldlM
      (fun acc part =>
        match pySplitAll (pstrip part) '=' with
        | [k, v] => .ok (dictInsert acc k v)
        | _ => .error ("Following string cannot be parsed to macros: " ++ s))
      []

/-- `SnapshotReqFile._check_looping`'s ancestor walk (parser.py lines
144-158), over the chain of `_path`s (self first): the first ancestor whose
normalized absolute path equals `p` yields the infinite-loop message, which
names the normalized target path and, when the matching ancestor has a
parent, that parent's path. -/
def _check_looping_chain (P : PathLib) (p : String) : List String → Option String
  | [] => Option.none
  | a :: rest =>
    if P.normpath (P.abspath a) == p then
      some (match rest with
        | par :: _ =>
          "Infinity loop detected. File " ++ p ++ " was already called from " ++ par
        | [] =>
          "Infinity loop detected. File " ++ p ++
            " was already loaded as root request file.")
    else _check_looping_chain P p rest

/-- `SnapshotReqFile._check_looping(path)` (parser.py lines 144-158). -/
def SnapshotReqFile._check_looping (P : PathLib) (ctx : ReqCtx) (path : String) :
    Option String :=
  _check_looping_chain P (P.normpath (P.abspath path)) (ctx._path :: ctx.ancestors)

/-- Errors of the include-line macro-argument stage, before formatting. -/
inductive IncErr where
  | fmtErr (msg : String)
  | parseErr (msg : String)
deriving DecidableEq

/-- The macro-argument handling of an include line (parser.py lines 86-110):
no argument means empty macros; otherwise the argument must be quoted
(`ReqFileFormatError`), then macros are substituted in it, remaining macros
validated, and the result parsed as `KEY=VALUE` pairs (`MacroError`s become
`ReqParseError`s in `read`). -/
def includeMacros (macros : List (String × String)) (cmacros : List String)
    (arg : Option String) : Except IncErr (List (String × String)) :=
  match arg with
  | Option.none => .ok []
  | some raw =>
    let mtxt := pstrip raw
    if !(pyStartswith mtxt "\"" || pyStartswith mtxt squote) then
      .error (.fmtErr "Syntax error. Macros argument must be quoted.")
    else
      let q := mtxt.data.headD ' '
      if mtxt.data.getLast? ≠ some q then
        .error (.fmtErr "Syntax error. Macros argument must be quoted.")
      else
        let inner := SnapshotPv.macros_substitution
          (String.mk ((mtxt.data.drop 1).dropLast)) macros
        match SnapshotReqFile.invalid_macros macros cmacros inner with
        | [] =>
          match parse_macros inner with
          | .ok ms => .ok ms
          | .error m => .error (.parseErr m)
        | inv => .error (.parseErr (macroErrMsg inv))

/-- The exception taxonomy of `SnapshotReqFile.read`, plus a fuel-exhaustion
marker (Python's finite recursion stack; no claim depends on it). -/
inductive ReadErr where
  | reqParse (msg : String)
  | reqFormat (msg : String)
  | infLoop (msg : String)
  | ioErr (msg : String)
  | recursionLimit
deriving DecidableEq

/-- The message of Python's `FileNotFoundError` raised by `open`. -/
def openErrMsg (path : String) : String :=
  "[Errno 2] No such file or directory: " ++ squote ++ path ++ squote

/-- The structural prefixes skipped by `read` (parser.py line 68). -/
def reqSkipPrefixes : List String := ["#", "data\x7b", "\x7d", "!"]

/-- The line loop of `SnapshotReqFile.read` (parser.py lines 62-126),
processing the remaining lines of the current file with `n` lines already
consumed.  PV lines are macro-substituted and validated; include lines
process their macro argument, run the loop check, open and recursively read
the child (a nested `IOError` is re-wrapped at each level with the
including line's context — note the source passes `(line, number)` to
`_format_err` in swapped order there); all other lines are skipped. -/
def readLines (P : PathLib) (fs : String → Option (List String)) :
    Nat → ReqCtx → List String → Nat → Except ReadErr (List String)
  | _, _, [], _ => .ok []
  | 0, _, _ :: _, _ => .error .recursionLimit
  | fuel + 1, ctx, l :: rest, n =>
    let n2 := n + 1
    let line := pstrip l
    if !(pyStartswithAny line reqSkipPrefixes) && !(line == "") then
      let pvname := SnapshotPv.macros_substitution
        (pySplit1 (rstrip line) ',').1 ctx._macros
      match SnapshotReqFile.invalid_macros ctx._macros ctx._c_macros pvname with
      | [] =>
        match readLines P fs fuel ctx rest n2 with
        | .error e => .error e
        | .ok pvs => .ok (pvname :: pvs)
      | inv =>
        .error (.reqParse (SnapshotReqFile._format_err ctx._trace (toString n2) line
          (macroErrMsg inv)))
    else if pyStartswith line "!" then
      let split := pySplit1 (String.mk (line.data.drop 1)) ','
      match includeMacros ctx._macros ctx._c_macros split.2 with
      | .error (.fmtErr m) =>
        .error (.reqFormat (SnapshotReqFile._format_err ctx._trace (toString n2) line m))
      | .error (.parseErr m) =>
        .error (.reqParse (SnapshotReqFile._format_err ctx._trace (toString n2) line m))
      | .ok ms =>
        let ipath := P.joinp (P.dirname ctx._path) split.1
        match SnapshotReqFile._check_looping P ctx ipath with
        | some msg =>
          .error (.infLoop (SnapshotReqFile._format_err ctx._trace (toString n2) line msg))
        | Option.none =>
          let cpath := P.abspath ipath
          let child : ReqCtx :=
            ⟨cpath, ctx._path :: ctx.ancestors, ms, [],
              ctx._trace ++ " [line " ++ toString n2 ++ ": " ++ line ++ "] >> " ++ cpath⟩
          let sub :=
            match fs cpath with
            | Option.none => Except.error (ReadErr.ioErr (openErrMsg cpath))
            | some ls => readLines P fs fuel child ls 0
          match sub with
          | .error (.ioErr m) =>
            .error (.ioErr (SnapshotReqFile._format_err ctx._trace line (toString n2) m))
          | .error e => .error e
          | .ok subPvs =>
            match readLines P fs fuel ctx rest n2 with
            | .error e => .error e
            | .ok pvs => .ok (subPvs ++ pvs)
    else readLines P fs fuel ctx rest n2

/-- `SnapshotReqFile.read()` (parser.py lines 47-127) on the file at
`ctx._path`. -/
def SnapshotReqFile.read (P : PathLib) (fs : String → Option (List String))
    (fuel : Nat) (ctx : ReqCtx) : Except ReadErr (List String) :=
  match fs ctx._path with
  | Option.none => .error (.ioErr (openErrMsg ctx._path))
  | some ls => readLines P fs fuel ctx ls 0

/-- `SnapshotReqFile.__init__` for a root request file (parser.py lines
13-45): the stored path is `os.path.abspath(path)` and the trace is that
path. -/
def SnapshotReqFile.mkRoot (P : PathLib) (path : String)
    (macros : List (String × String)) (cmacros : List String) : ReqCtx :=
  ⟨P.abspath path, [], macros, cmacros, P.abspath path⟩

/-! ### Claims C5 and C6: cycle detection and macro validation -/

theorem check_looping_chain_isSome_iff (P : PathLib) (p : String)
    (chain : List String) :
    (∃ m, _check_looping_chain P p chain = some m) ↔
      ∃ a ∈ chain, P.normpath (P.abspath a) = p := by
  induction chain with
  | nil => simp [_check_looping_chain]
  | cons a rest ih =>
    simp only [_check_looping_chain]
    by_cases h : P.normpath (P.abspath a) = p
    · have hb : (P.normpath (P.abspath a) == p) = true := by simp [h]
      simp only [hb, if_true]
      constructor
      · intro _
        exact ⟨a, List.mem_cons_self a rest, h⟩
      · intro _
        exact ⟨_, rfl⟩
    · have hb : (P.normpath (P.abspath a) == p) = false := by simp [h]
      simp only [hb, Bool.false_eq_true, if_false, ih, List.mem_cons]
      constructor
      · rintro ⟨a2, ha2, hp⟩
        exact ⟨a2, Or.inr ha2, hp⟩
      · rintro ⟨a2, ha2 | ha2, hp⟩
        · rw [ha2] at hp
          exact absurd hp h
        · exact ⟨a2, ha2, hp⟩

/-- Claim C5: processing an include directive whose target's normalized
absolute path equals the normalized absolute path of any node in the
current ancestor chain (the including file itself, its includers, up to
the root) makes the whole read abort with `ReqFileInfLoopError` — the
result is the error for every file system, so the target file is never
read — and the loop check fires exactly when such an ancestor exists; the
message names the normalized target path and the matching ancestor's
parent. -/
theorem include_loop_detection (P : PathLib) (fs : String → Option (List String))
    (fuel : Nat) (ctx : ReqCtx) (l : String) (rest : List String) (n : Nat)
    (ms : List (String × String)) (msg : String)
    (hbang : pyStartswith (pstrip l) "!" = true)
    (hmac : includeMacros ctx._macros ctx._c_macros
      (pySplit1 (String.mk ((pstrip l).data.drop 1)) ',').2 = .ok ms)
    (hloop : SnapshotReqFile._check_looping P ctx
      (P.joinp (P.dirname ctx._path)
        (pySplit1 (String.mk ((pstrip l).data.drop 1)) ',').1) = some msg) :
    readLines P fs (fuel + 1) ctx (l :: rest) n =
      .error (.infLoop (SnapshotReqFile._format_err ctx._trace (toString (n + 1))
        (pstrip l) msg)) ∧
    ((∃ m, SnapshotReqFile._check_looping P ctx
        (P.joinp (P.dirname ctx._path)
          (pySplit1 (String.mk ((pstrip l).data.drop 1)) ',').1) = some m) ↔
      ∃ a ∈ ctx._path :: ctx.ancestors,
        P.normpath (P.abspath a) =
          P.normpath (P.abspath (P.joinp (P.dirname ctx._path)
            (pySplit1 (String.mk ((pstrip l).data.drop 1)) ',').1))) ∧
    (∀ tgt a par chain2,
      P.normpath (P.abspath a) = P.normpath (P.abspath tgt) →
      _check_looping_chain P (P.normpath (P.abspath tgt)) (a :: par :: chain2) =
        some ("Infinity loop detected. File " ++ P.normpath (P.abspath tgt) ++
          " was already called from " ++ par)) := by
  have hany : pyStartswithAny (pstrip l) reqSkipPrefixes = true := by
    simp [pyStartswithAny, reqSkipPrefixes, hbang]
  refine ⟨?_, ?_, ?_⟩
  · have hmac2 := hmac
    have hloop2 := hloop
    simp only [List.drop_one] at hmac2 hloop2
    simp [readLines, hany, hbang, hmac2, hloop2]
  · exact check_looping_chain_isSome_iff P _ _
  · intro tgt a par chain2 h
    simp [_check_looping_chain, h]

/-- Witness for C5: a root request file that includes itself. -/
theorem include_loop_detection_witness :
    readLines (PathLib.mk id id (fun _ => "") (fun _ t => t)) (fun _ => Option.none) 1
        (ReqCtx.mk "/r.req" [] [] [] "/r.req") ["!/r.req"] 0 =
      .error (.infLoop (SnapshotReqFile._format_err "/r.req" "1" "!/r.req"
        "Infinity loop detected. File /r.req was already loaded as root request file.")) ∧
    ((∃ m, SnapshotReqFile._check_looping (PathLib.mk id id (fun _ => "") (fun _ t => t))
        (ReqCtx.mk "/r.req" [] [] [] "/r.req") "/r.req" = some m) ↔
      ∃ a ∈ ["/r.req"], a = "/r.req") ∧
    (∀ tgt a par chain2, a = tgt →
      _check_looping_chain (PathLib.mk id id (fun _ => "") (fun _ t => t)) tgt
          (a :: par :: chain2) =
        some ("Infinity loop detected. File " ++ tgt ++
          " was already called from " ++ par)) :=
  include_loop_detection (PathLib.mk id id (fun _ => "") (fun _ t => t))
    (fun _ => Option.none) 0 (ReqCtx.mk "/r.req" [] [] [] "/r.req") "!/r.req" [] 0 []
    "Infinity loop detected. File /r.req was already loaded as root request file."
    rfl rfl rfl

/-- Counterexample to claim C6: with macros `{A: "$(B)"}` and an empty
changeable-macro list, the line `pv$(B)` still contains the unresolved
token `$(B)` whose name `B` is not allow-listed, yet `read` does not abort:
`_validate_macros_in_txt` also exempts any token whose full text equals one
of the macro values (`raw_macro not in self._macros.values()`), so the line
is accepted and the macro stays in the output PV name. -/
theorem macro_value_escape_accepted :
    readLines (PathLib.mk id id id (fun a b => a ++ b)) (fun _ => Option.none) 2
        (ReqCtx.mk "/a.req" [] [("A", "$(B)")] [] "/a.req") ["pv$(B)"] 0 =
      .ok ["pv$(B)"] ∧
    findMacroTokens "pv$(B)" = ["$(B)"] ∧
    macroTokenName "$(B)" = "B" ∧
    ("B" ∈ (ReqCtx.mk "/a.req" [] [("A", "$(B)")] [] "/a.req")._c_macros → False) :=
  ⟨rfl, rfl, rfl, List.not_mem_nil "B"⟩

/-- Claim C6 (amended): after macro substitution, a PV line aborts
resolution with a `ReqParseError` naming the trace (file), line number,
line text and the offending macro tokens exactly when some remaining
`$(KEY)` token is neither equal (as full text) to one of the macro
substitution values nor has its name in the changeable-macro allow-list;
otherwise the line is accepted and the remaining macros stay literally in
the output PV name. -/
theorem pv_line_macro_validation (P : PathLib) (fs : String → Option (List String))
    (fuel : Nat) (ctx : ReqCtx) (l : String) (rest : List String) (n : Nat)
    (hskip : pyStartswithAny (pstrip l) reqSkipPrefixes = false)
    (hne : (pstrip l == "") = false) :
    (SnapshotReqFile.invalid_macros ctx._macros ctx._c_macros
        (SnapshotPv.macros_substitution (pySplit1 (rstrip (pstrip l)) ',').1
          ctx._macros) = [] →
      readLines P fs (fuel + 1) ctx (l :: rest) n =
        match readLines P fs fuel ctx rest (n + 1) with
        | .error e => .error e
        | .ok pvs => .ok (SnapshotPv.macros_substitution
            (pySplit1 (rstrip (pstrip l)) ',').1 ctx._macros :: pvs)) ∧
    (∀ inv, SnapshotReqFile.invalid_macros ctx._macros ctx._c_macros
        (SnapshotPv.macros_substitution (pySplit1 (rstrip (pstrip l)) ',').1
          ctx._macros) = inv → inv ≠ [] →
      readLines P fs (fuel + 1) ctx (l :: rest) n =
        .error (.reqParse (SnapshotReqFile._format_err ctx._trace (toString (n + 1))
          (pstrip l) (macroErrMsg inv)))) ∧
    (∀ txt tok, tok ∈ SnapshotReqFile.invalid_macros ctx._macros ctx._c_macros txt ↔
      tok ∈ findMacroTokens txt ∧ (∀ kv ∈ ctx._macros, kv.2 ≠ tok) ∧
        macroTokenName tok ∉ ctx._c_macros) := by
  refine ⟨?_, ?_, ?_⟩
  · intro h
    simp [readLines, hskip, hne, h]
  · intro inv hinv hnil
    rcases inv with _ | ⟨t, ts⟩
    · exact absurd rfl hnil
    · simp [readLines, hskip, hne, hinv]
  · intro txt tok
    simp only [SnapshotReqFile.invalid_macros, List.mem_filter, Bool.and_eq_true,
      Bool.not_eq_true', List.any_eq_false, beq_iff_eq]
    constructor
    · rintro ⟨h1, h2, h3⟩
      exact ⟨h1, h2, fun hm => h3 _ hm rfl⟩
    · rintro ⟨h1, h2, h3⟩
      exact ⟨h1, h2, fun m hm he => h3 (he ▸ hm)⟩

/-- Witness for C6 (amended): a line whose only macro is allow-listed. -/
theorem pv_line_macro_validation_witness :
    (SnapshotReqFile.invalid_macros [] ["X"]
        (SnapshotPv.macros_substitution (pySplit1 (rstrip (pstrip "pv$(X)")) ',').1 []) = [] →
      readLines (PathLib.mk id id id (fun a b => a ++ b)) (fun _ => Option.none) 2
          (ReqCtx.mk "/a.req" [] [] ["X"] "/a.req") ["pv$(X)"] 0 =
        match readLines (PathLib.mk id id id (fun a b => a ++ b)) (fun _ => Option.none) 1
            (ReqCtx.mk "/a.req" [] [] ["X"] "/a.req") [] 1 with
        | .error e => .error e
        | .ok pvs => .ok (SnapshotPv.macros_substitution
            (pySplit1 (rstrip (pstrip "pv$(X)")) ',').1 [] :: pvs)) ∧
    (∀ inv, SnapshotReqFile.invalid_macros [] ["X"]
        (SnapshotPv.macros_substitution (pySplit1 (rstrip (pstrip "pv$(X)")) ',').1 []) =
          inv → inv ≠ [] →
      readLines (PathLib.mk id id id (fun a b => a ++ b)) (fun _ => Option.none) 2
          (ReqCtx.mk "/a.req" [] [] ["X"] "/a.req") ["pv$(X)"] 0 =
        .error (.reqParse (SnapshotReqFile._format_err "/a.req" "1" "pv$(X)"
          (macroErrMsg inv)))) ∧
    (∀ txt tok, tok ∈ SnapshotReqFile.invalid_macros [] ["X"] txt ↔
      tok ∈ findMacroTokens txt ∧ (∀ kv ∈ ([] : List (String × String)), kv.2 ≠ tok) ∧
        macroTokenName tok ∉ ["X"]) :=
  pv_line_macro_validation (PathLib.mk id id id (fun a b => a ++ b))
    (fun _ => Option.none) 1 (ReqCtx.mk "/a.req" [] [] ["X"] "/a.req") "pv$(X)" [] 0
    rfl rfl

/-! ### Save-file codec (`parse_from_save_file`, parser.py lines 295-360) -/

/-- A decoded JSON value (`json.loads`). -/
inductive JVal where
  | jnull
  | jbool (b : Bool)
  | jnum (q : ℚ)
  | jstr (s : String)
  | jarr (xs : List JVal)
  | jobj (fields : List (String × JVal))

/-- The loop state of `parse_from_save_file`: `saved_pvs` maps a PV name to
its value (`Option.none` models an undefined value), plus the metadata
record, the `meta_loaded` flag and the error list. -/
structure SaveSt where
  saved_pvs : List (String × Option JVal)
  meta_data : JVal
  meta_loaded : Bool
  err : List String

def noMetaMsg : String := "No meta data in the file."

def metaDecodeErrMsg : String :=
  "Meta data could not be decoded. Must be in JSON format."

def valueDecodeErrMsg (pvname : String) : String :=
  "Value of " ++ squote ++ pvname ++ squote ++ " cannot be decoded. Will be ignored."

/-- The line loop of `parse_from_save_file` (parser.py lines 316-354).
`jdec` is the external `json.loads` (`Option.none` = `JSONDecodeError`).
The first line starting with `#` is metadata (decode failure appends an
error); with `metadata_only` the loop breaks there.  Any other non-blank
line not starting with `#` is split at the first comma into a PV name and
an optional value literal; a missing or undecodable literal leaves the
value undefined, the undecodable case also appending an error.  (The
`numpy.asarray` conversion of list literals keeps the sequence order and is
modelled as the identity on `jarr`.) -/
def saveLoop (jdec : String → Option JVal) (metadata_only : Bool) :
    SaveSt → List String → SaveSt
  | st, [] => st
  | st, line :: rest =>
    if pyStartswith line "#" && !st.meta_loaded then
      let st2 :=
        match jdec (String.mk (line.data.drop 1)) with
        | some m => { st with meta_data := m, meta_loaded := true }
        | Option.none =>
          { st with
            err := st.err ++ [metaDecodeErrMsg],
            meta_loaded := true }
      if metadata_only then st2 else saveLoop jdec metadata_only st2 rest
    else if !metadata_only && !(pstrip line == "") && !(pyStartswith line "#") then
      let sl := pySplit1 (pstrip line) ','
      match sl.2 with
      | some lit =>
        (match jdec lit with
         | some v =>
           saveLoop jdec metadata_only
             { st with saved_pvs := dictInsert st.saved_pvs sl.1 (some v) } rest
         | Option.none =>
           saveLoop jdec metadata_only
             { st with
               saved_pvs := dictInsert st.saved_pvs sl.1 Option.none,
               err := st.err ++ [valueDecodeErrMsg sl.1] } rest)
      | Option.none =>
        saveLoop jdec metadata_only
          { st with saved_pvs := dictInsert st.saved_pvs sl.1 Option.none } rest
    else saveLoop jdec metadata_only st rest

/-- `parse_from_save_file(save_file_path, metadata_only)` (parser.py lines
295-360) over the file's lines: run the loop from the empty state, then,
if no metadata line was seen, prepend the no-metadata error. -/
def parse_from_save_file (jdec : String → Option JVal) (lines : List String)
    (metadata_only : Bool) :
    List (String × Option JVal) × JVal × List String :=
  let st := saveLoop jdec metadata_only ⟨[], JVal.jobj [], false, []⟩ lines
  let errs := if !st.meta_loaded then noMetaMsg :: st.err else st.err
  (st.saved_pvs, st.meta_data, errs)

theorem lookup_map_update_ne {α : Type} (k : String) (v : α) (k2 : String)
    (h : k2 ≠ k) (d : List (String × α)) :
    dictLookup (d.map fun kv => if kv.1 == k then (k, v) else kv) k2 =
      dictLookup d k2 := by
  induction d with
  | nil => rfl
  | cons kv rest ih =>
    by_cases hk : kv.1 = k
    · simp only [List.map_cons, dictLookup, show (kv.1 == k) = true by simp [hk],
        if_true, show ((k, v).1 == k2) = false by simp [Ne.symm h],
        show (kv.1 == k2) = false by simp [hk, Ne.symm h], Bool.false_eq_true,
        if_false]
      exact ih
    · simp only [List.map_cons, dictLookup, show (kv.1 == k) = false by simp [hk],
        Bool.false_eq_true, if_false]
      by_cases h2 : kv.1 = k2
      · simp [h2]
      · simp only [show (kv.1 == k2) = false by simp [h2], Bool.false_eq_true,
          if_false]
        exact ih

theorem lookup_append_single_ne {α : Type} (k : String) (v : α) (k2 : String)
    (h : k2 ≠ k) (d : List (String × α)) :
    dictLookup (d ++ [(k, v)]) k2 = dictLookup d k2 := by
  induction d with
  | nil => simp [dictLookup, Ne.symm h]
  | cons kv rest ih => by_cases h2 : kv.1 = k2 <;> simp [dictLookup, h2, ih]

theorem lookup_map_update_self {α : Type} (k : String) (v : α) :
    ∀ d : List (String × α), d.any (fun kv => kv.1 == k) = true →
      dictLookup (d.map fun kv => if kv.1 == k then (k, v) else kv) k = some v := by
  intro d
  induction d with
  | nil => intro hany; simp at hany
  | cons kv rest ih =>
    intro hany
    by_cases hk : kv.1 = k
    · simp [dictLookup, hk]
    · have hb : (kv.1 == k) = false := by simp [hk]
      have hrest : rest.any (fun kv => kv.1 == k) = true := by
        rw [List.any_cons, hb] at hany
        simpa using hany
      simp only [List.map_cons, dictLookup, hb, Bool.false_eq_true, if_false]
      exact ih hrest

theorem lookup_append_single_self {α : Type} (k : String) (v : α) :
    ∀ d : List (String × α), d.any (fun kv => kv.1 == k) = false →
      dictLookup (d ++ [(k, v)]) k = some v := by
  intro d
  induction d with
  | nil => intro _; simp [dictLookup]
  | cons kv rest ih =>
    intro hany
    rw [List.any_cons] at hany
    have hb : (kv.1 == k) = false := by
      cases hc : (kv.1 == k) <;> simp_all
    have hrest : rest.any (fun kv => kv.1 == k) = false := by
      cases hc : rest.any (fun kv => kv.1 == k) <;> simp_all
    simp [dictLookup, hb, ih hrest]

theorem dictLookup_insert_ne {α : Type} (d : List (String × α)) (k : String)
    (v : α) (k2 : String) (h : k2 ≠ k) :
    dictLookup (dictInsert d k v) k2 = dictLookup d k2 := by
  unfold dictInsert
  split
  · exact lookup_map_update_ne k v k2 h d
  · exact lookup_append_single_ne k v k2 h d

theorem dictLookup_insert_self {α : Type} (d : List (String × α)) (k : String)
    (v : α) : dictLookup (dictInsert d k v) k = some v := by
  unfold dictInsert
  split
  case isTrue hany => exact lookup_map_update_self k v d hany
  case isFalse hany =>
    refine lookup_append_single_self k v d ?_
    cases hc : d.any (fun kv => kv.1 == k)
    · rfl
    · exact absurd hc hany

theorem saveLoop_no_hash_meta (jdec : String → Option JVal) (mo : Bool)
    (lines : List String) :
    ∀ st : SaveSt, (∀ m ∈ lines, pyStartswith m "#" = false) →
      (saveLoop jdec mo st lines).meta_loaded = st.meta_loaded := by
  induction lines with
  | nil => intro st _; rfl
  | cons line rest ih =>
    intro st h
    have hl : pyStartswith line "#" = false := h line (List.mem_cons_self line rest)
    have hr : ∀ m ∈ rest, pyStartswith m "#" = false :=
      fun m hm => h m (List.mem_cons_of_mem line hm)
    simp only [saveLoop, hl, Bool.false_and, Bool.false_eq_true, if_false]
    split
    · split
      · split
        · exact ih _ hr
        · exact ih _ hr
      · exact ih _ hr
    · exact ih _ hr

/-- Claim C7: `parse_from_save_file` never aborts on a malformed data
line: a data line whose value literal fails to decode yields an appended
error string and that PV's value set to undefined (`None`), a decodable
line stores the decoded value, entries of all other PV names are untouched
by either (the dict-update lemmas), and when no line begins with the
comment marker `#` the returned error list starts with the prepended
no-metadata error. -/
theorem parse_save_file_partial_failure
    (jdec : String → Option JVal) (st : SaveSt) (l : String)
    (rest anyLines : List String) (name lit : String) (v : JVal)
    (hhash : pyStartswith l "#" = false)
    (hne : (pstrip l == "") = false)
    (hsplit : pySplit1 (pstrip l) ',' = (name, some lit)) :
    (jdec lit = Option.none →
      saveLoop jdec false st (l :: rest) =
        saveLoop jdec false
          { st with
            saved_pvs := dictInsert st.saved_pvs name Option.none,
            err := st.err ++ [valueDecodeErrMsg name] } rest) ∧
    (jdec lit = some v →
      saveLoop jdec false st (l :: rest) =
        saveLoop jdec false
          { st with saved_pvs := dictInsert st.saved_pvs name (some v) } rest) ∧
    (∀ (d : List (String × Option JVal)) (k : String) (w : Option JVal) (k2 : String),
      k2 ≠ k → dictLookup (dictInsert d k w) k2 = dictLookup d k2) ∧
    (∀ (d : List (String × Option JVal)) (k : String) (w : Option JVal),
      dictLookup (dictInsert d k w) k = some w) ∧
    ((∀ m ∈ anyLines, pyStartswith m "#" = false) →
      (parse_from_save_file jdec anyLines false).2.2.head? = some noMetaMsg) := by
  refine ⟨?_, ?_, fun d k w k2 hk => dictLookup_insert_ne d k w k2 hk,
    fun d k w => dictLookup_insert_self d k w, ?_⟩
  · intro hdec
    simp [saveLoop, hhash, hne, hsplit, hdec]
  · intro hdec
    simp [saveLoop, hhash, hne, hsplit, hdec]
  · intro h
    have hm := saveLoop_no_hash_meta jdec false anyLines ⟨[], JVal.jobj [], false, []⟩ h
    simp [parse_from_save_file, hm]

/-- Witness for C7: the line `foo,bad` with a decoder that only accepts
`1`, and the well-formed metadata-free file `foo,1`. -/
theorem parse_save_file_partial_failure_witness :
    ((fun s => if s == "1" then some (JVal.jnum 1) else Option.none) "bad" =
        Option.none →
      saveLoop (fun s => if s == "1" then some (JVal.jnum 1) else Option.none) false
          ⟨[], JVal.jobj [], false, []⟩ ["foo,bad"] =
        saveLoop (fun s => if s == "1" then some (JVal.jnum 1) else Option.none) false
          ⟨[("foo", Option.none)], JVal.jobj [], false, [valueDecodeErrMsg "foo"]⟩ []) ∧
    ((fun s => if s == "1" then some (JVal.jnum 1) else Option.none) "bad" =
        some (JVal.jnum 1) →
      saveLoop (fun s => if s == "1" then some (JVal.jnum 1) else Option.none) false
          ⟨[], JVal.jobj [], false, []⟩ ["foo,bad"] =
        saveLoop (fun s => if s == "1" then some (JVal.jnum 1) else Option.none) false
          ⟨[("foo", some (JVal.jnum 1))], JVal.jobj [], false, []⟩ []) ∧
    (∀ (d : List (String × Option JVal)) (k : String) (w : Option JVal) (k2 : String),
      k2 ≠ k → dictLookup (dictInsert d k w) k2 = dictLookup d k2) ∧
    (∀ (d : List (String × Option JVal)) (k : String) (w : Option JVal),
      dictLookup (dictInsert d k w) k = some w) ∧
    ((∀ m ∈ ["foo,1"], pyStartswith m "#" = false) →
      (parse_from_save_file
        (fun s => if s == "1" then some (JVal.jnum 1) else Option.none)
        ["foo,1"] false).2.2.head? = some noMetaMsg) :=
  parse_save_file_partial_failure
    (fun s => if s == "1" then some (JVal.jnum 1) else Option.none)
    ⟨[], JVal.jobj [], false, []⟩ "foo,bad" [] ["foo,1"] "foo" "bad" (JVal.jnum 1)
    rfl rfl rfl
